import Mathlib

/-!
Shallow embedding of the batch-processing pipeline: the durable queue schema and its SQL
primitives (claim, reset, requeue), the worker dispatcher with its retry and dead-letter
policy, the rate-limit gate, the health monitor with auto-remediation, and the scheduler
cron matcher.

Modelling conventions:
* Timestamps are integers (milliseconds since an arbitrary epoch); an SQL interval of
  five minutes is 300000, thirty minutes is 1800000.
* The database tables are lists of rows; SQL UPDATE is a map over the list, SELECT is a
  filter, ORDER BY is an insertion sort by the corresponding key.
* The JSONB metadata payload is opaque: it is modelled by a natural number code. The
  pipeline always stores a JSON object there, so the payload is non-null and truthy.
* Fallible or absent values are Option.
-/

namespace Pipeline

/-- The enum processing_status from the migration. -/
inductive Status where
  | pending
  | processing
  | completed
  | error
deriving DecidableEq, Repr

/-- A row of the processing_batches table. -/
structure Batch where
  id : Nat
  batch_type : String
  status : Status
  priority : Int
  retry_count : Nat
  items_total : Int
  items_processed : Int
  items_failed : Int
  claimed_by : Option String
  claim_expires_at : Option Int
  started_at : Option Int
  completed_at : Option Int
  error_message : Option String
  metadata : Nat
  created_at : Int
  updated_at : Int
deriving DecidableEq, Repr

/-- A row of the dead_letter_items table. -/
structure DeadLetterItem where
  id : Nat
  item_type : String
  error_message : Option String
  original_batch_id : Nat
  original_item_id : Nat
  retry_count : Nat
  metadata : Nat
  created_at : Int
  updated_at : Int
deriving DecidableEq, Repr

/-- A row of the api_rate_limits table (the columns the code reads). -/
structure ApiRateLimit where
  api_name : String
  endpoint : String
  requests_remaining : Int
  requests_limit : Int
  reset_at : Int
deriving DecidableEq, Repr

/-- Milliseconds in one minute. -/
def minuteMs : Int := 60000

/-- The five-minute lease set by claim_processing_batches. -/
def leaseMs : Int := 5 * minuteMs

/-- WHERE clause of the claimable_batches CTE in claim_processing_batches:
status = pending AND (claim_expires_at IS NULL OR claim_expires_at < now). -/
def claimEligible (now : Int) (b : Batch) : Bool :=
  b.status == .pending &&
    (match b.claim_expires_at with
     | none => true
     | some t => decide (t < now))

/-- ORDER BY retry_count ASC, created_at ASC of claim_processing_batches. -/
def claimOrder (a b : Batch) : Prop :=
  a.retry_count < b.retry_count ∨ (a.retry_count = b.retry_count ∧ a.created_at ≤ b.created_at)

instance : DecidableRel claimOrder := fun a b =>
  inferInstanceAs (Decidable (a.retry_count < b.retry_count ∨
    (a.retry_count = b.retry_count ∧ a.created_at ≤ b.created_at)))

instance : IsTotal Batch claimOrder where
  total a b := by
    rcases Nat.lt_trichotomy a.retry_count b.retry_count with h | h | h
    · exact Or.inl (Or.inl h)
    · rcases le_total a.created_at b.created_at with hc | hc
      · exact Or.inl (Or.inr ⟨h, hc⟩)
      · exact Or.inr (Or.inr ⟨h.symm, hc⟩)
    · exact Or.inr (Or.inl h)

instance : IsTrans Batch claimOrder where
  trans a b c hab hbc := by
    rcases hab with h1 | ⟨h1, h1c⟩ <;> rcases hbc with h2 | ⟨h2, h2c⟩
    · exact Or.inl (h1.trans h2)
    · exact Or.inl (h2 ▸ h1)
    · exact Or.inl (h1 ▸ h2)
    · exact Or.inr ⟨h1.trans h2, h1c.trans h2c⟩

/-- The SET list of the updated_batches CTE, applied to one selected row. -/
def claimUpdate (now : Int) (workerId : String) (b : Batch) : Batch :=
  { b with status := .processing
         , claimed_by := some workerId
         , claim_expires_at := some (now + leaseMs)
         , started_at := some (b.started_at.getD now)
         , updated_at := now }

/-- The rows selected by the claimable_batches CTE: eligible rows ordered by
retry_count then created_at, limited to p_limit. -/
def claimSelected (db : List Batch) (p_limit : Nat) (now : Int) : List Batch :=
  (List.insertionSort claimOrder (db.filter (claimEligible now))).take p_limit

/-- claim_processing_batches(p_limit): atomically leases up to p_limit pending batches.
The worker id is generated inside the SQL function; it is a parameter here. Returns the
updated table together with the updated rows returned by the function. -/
def claim_processing_batches (db : List Batch) (p_limit : Nat) (now : Int)
    (workerId : String) : List Batch × List Batch :=
  let selected := claimSelected db p_limit now
  let selIds := selected.map (·.id)
  (db.map fun b => if selIds.contains b.id then claimUpdate now workerId b else b,
   selected.map (claimUpdate now workerId))

/-- WHERE clause of reset_expired_batches:
status = processing AND claim_expires_at < now - p_expiry_minutes. -/
def resetExpiredPred (now : Int) (p_expiry_minutes : Nat) (b : Batch) : Bool :=
  b.status == .processing &&
    (match b.claim_expires_at with
     | none => false
     | some t => decide (t < now - (p_expiry_minutes : Int) * minuteMs))

/-- The SET list of reset_expired_batches applied to one matched row. The column
retry_count is NOT NULL, so COALESCE(retry_count, 0) is the old value. -/
def resetUpdate (now : Int) (b : Batch) : Batch :=
  { b with status := .pending
         , claimed_by := none
         , claim_expires_at := none
         , updated_at := now
         , retry_count := b.retry_count
         , error_message := some (b.error_message.getD "" ++ " Batch expired and was reset.") }

/-- reset_expired_batches(p_expiry_minutes): resets stranded leases; returns the updated
table and the ROW_COUNT that the SQL function returns. -/
def reset_expired_batches (db : List Batch) (p_expiry_minutes : Nat) (now : Int) :
    List Batch × Nat :=
  (db.map fun b => if resetExpiredPred now p_expiry_minutes b then resetUpdate now b else b,
   (db.filter (resetExpiredPred now p_expiry_minutes)).length)

/-- Ordering of the dead-letter requeue loop: ORDER BY created_at. -/
def dlqOrder (a b : DeadLetterItem) : Prop := a.created_at ≤ b.created_at

instance : DecidableRel dlqOrder := fun a b =>
  inferInstanceAs (Decidable (a.created_at ≤ b.created_at))

instance : IsTotal DeadLetterItem dlqOrder where
  total a b := le_total a.created_at b.created_at

instance : IsTrans DeadLetterItem dlqOrder where
  trans _ _ _ hab hbc := le_trans hab hbc

/-- The items the requeue loop iterates over:
WHERE retry_count < 3 ORDER BY created_at LIMIT p_limit. -/
def dlqSelected (dlq : List DeadLetterItem) (p_limit : Nat) : List DeadLetterItem :=
  (List.insertionSort dlqOrder (dlq.filter fun d => decide (d.retry_count < 3))).take p_limit

/-- The INSERT INTO processing_batches executed for one requeued dead-letter item.
Columns absent from the insert list take their table defaults; created_at and
updated_at default to now, the id is generated. -/
def requeueBatch (newId : Nat) (now : Int) (d : DeadLetterItem) : Batch :=
  { id := newId
  , batch_type := d.item_type
  , status := .pending
  , priority := 5
  , retry_count := d.retry_count + 1
  , items_total := 0
  , items_processed := 0
  , items_failed := 0
  , claimed_by := none
  , claim_expires_at := none
  , started_at := none
  , completed_at := none
  , error_message := none
  , metadata := d.metadata
  , created_at := now
  , updated_at := now }

/-- The batches inserted by the requeue loop, one per selected item, with generated
ids idBase, idBase + 1, and so on. -/
def requeueInserts (now : Int) : Nat → List DeadLetterItem → List Batch
  | _, [] => []
  | idBase, d :: ds => requeueBatch idBase now d :: requeueInserts now (idBase + 1) ds

/-- requeue_dead_letter_items(p_limit): for each dead-letter item with retry_count < 3,
in created_at order up to p_limit, inserts a fresh pending batch and increments the
retry_count of the dead-letter row. Returns the updated dead-letter table, the inserted
batches, and the count the SQL function returns. -/
def requeue_dead_letter_items (dlq : List DeadLetterItem) (p_limit : Nat) (idBase : Nat)
    (now : Int) : List DeadLetterItem × List Batch × Nat :=
  let selected := dlqSelected dlq p_limit
  let selIds := selected.map (·.id)
  (dlq.map fun d =>
     if selIds.contains d.id then { d with retry_count := d.retry_count + 1, updated_at := now }
     else d,
   requeueInserts now idBase selected,
   selected.length)

/-- MAX_CONCURRENT_JOBS of the worker. -/
def MAX_CONCURRENT_JOBS : Nat := 3

/-- The RETRY_LIMITS lookup of the worker, as used in handleError: the table value for
the batch type, with RETRY_LIMITS.default = 3 as the fallback for absent keys. -/
def RETRY_LIMITS (batchType : String) : Nat :=
  if batchType = "discover-artists" then 3
  else if batchType = "album_page" then 5
  else if batchType = "track_page" then 5
  else if batchType = "producer_discovery" then 3
  else if batchType = "default" then 3
  else 3

/-- The backoff computed in the retry branch of handleError: 500 * 2 ^ (retryCount - 1)
milliseconds, where retryCount is the number of the next attempt. -/
def backoffDelay (retryCount : Nat) : Nat := 500 * 2 ^ (retryCount - 1)

/-- The payload of the INSERT INTO dead_letter_items in handleError. The inserted row
additionally receives generated id and timestamps from the table defaults. -/
structure DeadLetterInsert where
  item_type : String
  error_message : String
  original_batch_id : Nat
  original_item_id : Nat
  metadata : Nat
deriving DecidableEq, Repr

/-- The two database effects handleError can produce: the retry-branch UPDATE, or the
error-branch UPDATE together with exactly one dead-letter INSERT. -/
inductive ErrorOutcome where
  | retryScheduled (updated : Batch)
  | movedToDLQ (updated : Batch) (inserted : DeadLetterInsert)
deriving DecidableEq, Repr

/-- handleError(batchId, error, batchType) of the worker. It re-reads the batch row (here
b), computes retryCount = retry_count + 1 and the per-type limit, and either reschedules
the batch as pending with the backoff future-dated into updated_at, or marks it error
and inserts one dead-letter row. -/
def handleError (b : Batch) (errMessage : String) (batchType : String) (now : Int) :
    ErrorOutcome :=
  let retryCount := b.retry_count + 1
  let retryLimit := RETRY_LIMITS batchType
  if retryCount < retryLimit then
    .retryScheduled
      { b with status := .pending
             , retry_count := retryCount
             , error_message := some errMessage
             , updated_at := now + (backoffDelay retryCount : Nat) }
  else
    .movedToDLQ
      { b with status := .error
             , error_message := some errMessage
             , completed_at := some now }
      { item_type := batchType
      , error_message := errMessage
      , original_batch_id := b.id
      , original_item_id := b.id
      , metadata := b.metadata }

/-- The backoffs a single batch observes over successive failed dispatches, read off the
updated_at future-dating produced by handleError; the trace stops when the batch is
moved to the dead-letter queue. Fuel bounds the recursion. -/
def failureBackoffs (now : Int) : Nat → Batch → List Int
  | 0, _ => []
  | fuel + 1, b =>
    match handleError b "boom" b.batch_type now with
    | .retryScheduled b2 => (b2.updated_at - now) :: failureBackoffs now fuel b2
    | .movedToDLQ _ _ => []

/-- The retry_count stored on the batch row at the moment it is moved to the dead-letter
queue, when one batch fails over and over. Fuel bounds the recursion. -/
def finalErrorRetryCount (now : Int) : Nat → Batch → Option Nat
  | 0, _ => none
  | fuel + 1, b =>
    match handleError b "boom" b.batch_type now with
    | .retryScheduled b2 => finalErrorRetryCount now fuel b2
    | .movedToDLQ updated _ => some updated.retry_count

/-- Result shape of a supabase select with count exact and head true: the request
returns no row payload, so the data field of the destructured response is null; the row
count is in the separate count field. -/
structure CountQueryResult where
  data : Option Nat
  count : Nat
deriving DecidableEq, Repr

/-- The query at the top of claimAndProcessBatches: select id with count exact and
head true, filtered to status processing. -/
def selectProcessingCountHead (db : List Batch) : CountQueryResult :=
  { data := none
  , count := (db.filter fun b => b.status == .processing).length }

/-- What the worker tick decides before dispatching: either it stops at the concurrency
cap (logging max_concurrent_jobs_reached and returning claimed 0), or it calls
claim_processing_batches with the computed limit. -/
inductive TickDecision where
  | capReached
  | claimCalled (want : Nat)
deriving DecidableEq, Repr

/-- The capacity logic of claimAndProcessBatches. The code destructures the data field
of the head-count response into inProgressCount, then evaluates
(inProgressCount || 0) >= MAX_CONCURRENT_JOBS and
jobsToFetch = MAX_CONCURRENT_JOBS - (inProgressCount || 0). -/
def claimAndProcessBatchesDecision (db : List Batch) : TickDecision :=
  let inProgressCount := (selectProcessingCountHead db).data
  if MAX_CONCURRENT_JOBS ≤ inProgressCount.getD 0 then .capReached
  else .claimCalled (MAX_CONCURRENT_JOBS - inProgressCount.getD 0)

/-- The stalled-batch window of the monitor: ALERT_THRESHOLDS.processing_time_minutes
(30 minutes) in milliseconds. -/
def stalledCutoffMs : Int := 30 * minuteMs

/-- The stalled-batch query of the monitor: status processing and started_at earlier
than now minus 30 minutes (a null started_at is not matched by the SQL lt filter). -/
def isStalled (now : Int) (b : Batch) : Bool :=
  b.status == .processing &&
    (match b.started_at with
     | none => false
     | some s => decide (s < now - stalledCutoffMs))

/-- Alert level of a monitor alert. -/
inductive AlertLevel where
  | warning
  | critical
deriving DecidableEq, Repr

/-- One entry of the alerts array of the health report (the fields the control flow
reads). -/
structure Alert where
  level : AlertLevel
  metric : String
deriving DecidableEq, Repr

/-- The dead-letter count query of the monitor: select all with count exact and head
true over dead_letter_items newer than 24 hours; the destructured data field is null. -/
def selectDeadLetterCountHead (dlq : List DeadLetterItem) (now : Int) : CountQueryResult :=
  { data := none
  , count := (dlq.filter fun d => decide (now - 24 * 3600000 ≤ d.created_at)).length }

/-- The error-batch count query of the monitor: select all with count exact and head
true over processing_batches with status error updated within 24 hours; the
destructured data field is null. -/
def selectErrorBatchesCountHead (db : List Batch) (now : Int) : CountQueryResult :=
  { data := none
  , count := (db.filter fun b =>
      b.status == .error && decide (now - 24 * 3600000 ≤ b.updated_at)).length }

/-- The rate-limit alerts of the monitor: one warning per row whose remaining percent
is below 20 (the percent is null when requests_limit is falsy, and no alert is raised
then). -/
def rateLimitAlerts (rls : List ApiRateLimit) : List Alert :=
  rls.filterMap fun r =>
    if r.requests_limit ≠ 0 ∧ 100 * r.requests_remaining < 20 * r.requests_limit then
      some { level := .warning, metric := "rate_limit" }
    else none

/-- The alerts array assembled by checkSystemHealth, in code order: the dead-letter
warning, the error-batch warning, the stalled-batch critical alert, then the rate-limit
warnings. The two count-based warnings compare the null data field of head-count
queries (coerced to 0) against their thresholds. -/
def monitorAlerts (db : List Batch) (dlq : List DeadLetterItem) (rls : List ApiRateLimit)
    (now : Int) : List Alert :=
  (if 10 < (selectDeadLetterCountHead dlq now).data.getD 0 then
     [{ level := .warning, metric := "dead_letter_items_24h" }]
   else []) ++
  (if 20 < (selectErrorBatchesCountHead db now).data.getD 0 then
     [{ level := .warning, metric := "error_batches_24h" }]
   else []) ++
  (if 5 < (db.filter (isStalled now)).length then
     [{ level := .critical, metric := "stalled_batches" }]
   else []) ++
  rateLimitAlerts rls

/-- The outcome of one checkSystemHealth invocation: the alerts, the stalled count
metric, whether and with which expiry reset_expired_batches was invoked, the recorded
actions (name and count), and the batch table after remediation. -/
structure MonitorOutcome where
  alerts : List Alert
  stalledCount : Nat
  resetExpiryMinutes : Option Nat
  actions : List (String × Nat)
  batchesAfter : List Batch
deriving DecidableEq, Repr

/-- checkSystemHealth of the monitor, restricted to its database effects: if any
critical alert is present and the stalled count is positive, it invokes
reset_expired_batches with ALERT_THRESHOLDS.processing_time_minutes (30) and records
the action reset_stalled_batches carrying the stalled count. -/
def checkSystemHealth (db : List Batch) (dlq : List DeadLetterItem)
    (rls : List ApiRateLimit) (now : Int) : MonitorOutcome :=
  let alerts := monitorAlerts db dlq rls now
  let stalledCount := (db.filter (isStalled now)).length
  if (alerts.any fun a => a.level == .critical) ∧ 0 < stalledCount then
    { alerts := alerts
    , stalledCount := stalledCount
    , resetExpiryMinutes := some 30
    , actions := [("reset_stalled_batches", stalledCount)]
    , batchesAfter := (reset_expired_batches db 30 now).1 }
  else
    { alerts := alerts
    , stalledCount := stalledCount
    , resetExpiryMinutes := none
    , actions := []
    , batchesAfter := db }

/-- Decimal digit test, as the regex class of digits. -/
def isDigitChar (c : Char) : Bool := '0' ≤ c && c ≤ '9'

/-- Whitespace test, as the regex whitespace class (the characters that can occur
here). -/
def isSpaceChar (c : Char) : Bool := c == ' ' || c == '\t' || c == '\n' || c == '\r'

/-- Numeric value of a digit character. -/
def digitVal (c : Char) : Nat := c.toNat - '0'.toNat

/-- Value of a decimal digit string. -/
def digitsToNat (ds : List Char) : Nat := ds.foldl (fun a c => 10 * a + digitVal c) 0

/-- parseInt on the inputs the scheduler feeds it (no sign, no leading whitespace): the
value of the leading run of digits, none (NaN) when there is no leading digit. -/
def parseLeadingNat (cs : List Char) : Option Nat :=
  if (cs.takeWhile isDigitChar).isEmpty then none
  else some (digitsToNat (cs.takeWhile isDigitChar))

/-- Element 1 of split(sep): the segment strictly between the first and the second
occurrence of sep, none (undefined) when sep does not occur at all. -/
def splitSecondSeg (sep : Char) : List Char → Option (List Char)
  | [] => none
  | c :: cs =>
    if c == sep then some (cs.takeWhile fun d => !(d == sep))
    else splitSecondSeg sep cs

/-- Element 0 of split(one space): the characters up to the first space. -/
def firstSpaceField (cs : List Char) : List Char := cs.takeWhile fun c => !(c == ' ')

/-- The regex test of one or more digits followed by a whitespace character, anchored at
the start. Backtracking cannot help the greedy digit run here, because any shorter run
ends right before another digit, which is not whitespace. -/
def digitThenSpace (cs : List Char) : Bool :=
  !(cs.takeWhile isDigitChar).isEmpty &&
    (match cs.drop (cs.takeWhile isDigitChar).length with
     | c :: _ => isSpaceChar c
     | [] => false)

/-- The star-slash branch: the interval is parseInt of split-slash element 1 up to its
first space; the minute modulo the interval is compared with 0, where an unparsable or
zero interval makes the modulus NaN, which never compares equal to 0. -/
def starSlashFire (cs : List Char) (currentMinute : Nat) : Bool :=
  match splitSecondSeg '/' cs with
  | none => false
  | some seg =>
    match parseLeadingNat (firstSpaceField seg) with
    | none => false
    | some 0 => false
    | some (n + 1) => currentMinute % (n + 1) == 0

/-- The specific-minute branch: the minute is compared with parseInt of the first
space-separated field. -/
def minuteFire (cs : List Char) (currentMinute : Nat) : Bool :=
  match parseLeadingNat (firstSpaceField cs) with
  | none => false
  | some v => currentMinute == v

/-- shouldRunSchedule on the character list of the pattern: the every-minute pattern
always fires; a pattern starting with the star-slash prefix takes the interval branch;
a pattern of digits followed by whitespace takes the specific-minute branch; everything
else never fires. -/
def shouldRunAux (cs : List Char) (currentMinute : Nat) : Bool :=
  if cs = "* * * * *".data then true
  else if cs.take 2 = ['*', '/'] then starSlashFire cs currentMinute
  else if digitThenSpace cs then minuteFire cs currentMinute
  else false

/-- shouldRunSchedule(cronPattern) of the scheduler, evaluated at the current
wall-clock minute. -/
def shouldRunSchedule (cronPattern : String) (currentMinute : Nat) : Bool :=
  shouldRunAux cronPattern.data currentMinute

/-- The pattern written star, slash, the digits ds, then the four trailing star
fields. -/
def starSlashPattern (ds : List Char) : String :=
  ⟨'*' :: '/' :: (ds ++ ' ' :: "* * * *".data)⟩

/-- The pattern written as the digits ds followed by the four trailing star fields. -/
def minutePattern (ds : List Char) : String :=
  ⟨ds ++ ' ' :: "* * * *".data⟩

/-- An eligible pending batch used as a concrete input. -/
def pendingBatch : Batch :=
  { id := 1
  , batch_type := "album_page"
  , status := .pending
  , priority := 5
  , retry_count := 0
  , items_total := 0
  , items_processed := 0
  , items_failed := 0
  , claimed_by := none
  , claim_expires_at := none
  , started_at := none
  , completed_at := none
  , error_message := none
  , metadata := 7
  , created_at := 0
  , updated_at := 0 }

/-- A processing batch with a long-expired lease, used as a concrete input. -/
def expiredBatch : Batch :=
  { pendingBatch with
      id := 2
    , status := .processing
    , claimed_by := some "w0"
    , claim_expires_at := some (-2000000)
    , started_at := some (-2300000)
    , updated_at := 5 }

/-- A batch of the type with the largest retry limit, at retry_count 0, used as a
concrete input for the retry schedule. -/
def albumBatch : Batch := pendingBatch

/-- A stalled processing batch for the monitor counterexample: claimed at time 0
(started_at 0, lease until 300000) and observed at now = 1860000, 31 minutes after its
start, so it is stalled; its lease expired 26 minutes before now, inside the 30-minute
reset window, so reset_expired_batches does not touch it. -/
def stalledBatch (k : Nat) : Batch :=
  { pendingBatch with
      id := 100 + k
    , status := .processing
    , claimed_by := some "w1"
    , claim_expires_at := some 300000
    , started_at := some 0 }

/-- Six stalled batches: enough to raise the critical alert. -/
def stalledDb : List Batch :=
  [stalledBatch 0, stalledBatch 1, stalledBatch 2, stalledBatch 3, stalledBatch 4,
   stalledBatch 5]

/-- Three processing batches: the store state in which the worker cap should trigger. -/
def threeProcessingDb : List Batch :=
  [{ pendingBatch with id := 11, status := .processing },
   { pendingBatch with id := 12, status := .processing },
   { pendingBatch with id := 13, status := .processing }]

/-- A batch one retry away from exhaustion: album_page has limit 5, and retry_count 4
makes the next attempt number 5. -/
def exhaustedBatch : Batch := { pendingBatch with retry_count := 4 }

/-- The batch row written by an ErrorOutcome. -/
def outcomeUpdated : ErrorOutcome → Batch
  | .retryScheduled u => u
  | .movedToDLQ u _ => u

/-- Whether an ErrorOutcome took the dead-letter branch. -/
def isDeadLettered : ErrorOutcome → Bool
  | .retryScheduled _ => false
  | .movedToDLQ _ _ => true

/-- A dead-letter item used as a concrete input. -/
def dlqItem (k rc : Nat) : DeadLetterItem :=
  { id := 200 + k
  , item_type := "album_page"
  , error_message := some "boom"
  , original_batch_id := 1
  , original_item_id := 1
  , retry_count := rc
  , metadata := 7
  , created_at := Int.ofNat k
  , updated_at := 0 }

/-- C2: for a failed dispatch whose next attempt number is below the per-type limit,
handleError reschedules the batch as pending with retry_count set to the next attempt
number, the error message stored, and updated_at future-dated by 500 * 2 ^ (next - 1)
milliseconds. Amended: since every per-type limit is at most 5, the retry branch only
ever runs with next at most 4, so the backoffs a single batch observes are
500, 1000, 2000, 4000 ms; the 8000 ms step of the geometric schedule is unreachable. -/
theorem C2_retry_policy :
    (∀ (b : Batch) (errMessage batchType : String) (now : Int),
        b.retry_count + 1 < RETRY_LIMITS batchType →
        handleError b errMessage batchType now =
          .retryScheduled
            { b with status := .pending
                   , retry_count := b.retry_count + 1
                   , error_message := some errMessage
                   , updated_at := now + (backoffDelay (b.retry_count + 1) : Nat) })
    ∧ (∀ n : Nat, backoffDelay n = 500 * 2 ^ (n - 1))
    ∧ (∀ batchType : String, RETRY_LIMITS batchType ≤ 5)
    ∧ failureBackoffs 0 10 albumBatch = [500, 1000, 2000, 4000] := by
  refine ⟨?_, fun n => rfl, ?_, by decide⟩
  · intro b e t now h
    unfold handleError
    rw [if_pos h]
  · intro t
    unfold RETRY_LIMITS
    split <;> try split <;> try split <;> try split <;> try split
    all_goals decide

/-- C2 witness: the first failure of a fresh album_page batch is rescheduled with a
500 ms backoff. -/
theorem C2_retry_policy_witness :
    handleError albumBatch "boom" "album_page" 0 =
      .retryScheduled
        { albumBatch with status := .pending
                        , retry_count := 1
                        , error_message := some "boom"
                        , updated_at := 500 } := by
  have h := C2_retry_policy.1 albumBatch "boom" "album_page" 0 (by decide)
  simpa using h

/-- C2 counterexample: the claim asserts that successive retries of one batch carry
backoffs 500, 1000, 2000, 4000, 8000 ms. For the batch type with the largest retry
limit (album_page, limit 5), repeated failures of one batch produce the backoff trace
500, 1000, 2000, 4000 and then a dead-letter transfer: no retry is ever future-dated by
8000 ms. -/
theorem C2_counterexample :
    failureBackoffs 0 10 albumBatch = [500, 1000, 2000, 4000]
    ∧ failureBackoffs 0 10 albumBatch ≠ [500, 1000, 2000, 4000, 8000]
    ∧ RETRY_LIMITS "album_page" = 5
    ∧ ¬ (8000 : Int) ∈ failureBackoffs 0 10 albumBatch := by
  decide

/-- C3: for a failed dispatch whose next attempt number reaches the per-type limit,
handleError marks the batch error with completed_at = now and the error message, and
inserts exactly one dead-letter row with item_type equal to the batch type,
original_batch_id equal to the batch id, and the original metadata. -/
theorem C3_exhausted_policy (b : Batch) (errMessage : String) (now : Int)
    (h : RETRY_LIMITS b.batch_type ≤ b.retry_count + 1) :
    handleError b errMessage b.batch_type now =
      .movedToDLQ
        { b with status := .error
               , error_message := some errMessage
               , completed_at := some now }
        { item_type := b.batch_type
        , error_message := errMessage
        , original_batch_id := b.id
        , original_item_id := b.id
        , metadata := b.metadata } := by
  unfold handleError
  rw [if_neg (by omega)]

/-- C3 witness: the fifth failure of an album_page batch is moved to the dead-letter
queue with the original metadata. -/
theorem C3_exhausted_policy_witness :
    handleError exhaustedBatch "boom" exhaustedBatch.batch_type 77 =
      .movedToDLQ
        { exhaustedBatch with status := .error
                            , error_message := some "boom"
                            , completed_at := some 77 }
        { item_type := exhaustedBatch.batch_type
        , error_message := "boom"
        , original_batch_id := exhaustedBatch.id
        , original_item_id := exhaustedBatch.id
        , metadata := exhaustedBatch.metadata } :=
  C3_exhausted_policy exhaustedBatch "boom" 77 (by decide)

/-- C10: the error-branch UPDATE of handleError writes only status, error_message and
completed_at; every other stored field, in particular retry_count, is unchanged, so a
batch that reaches status error keeps retry_count = limit(batch_type) - 1, the value
written by its last retry. -/
theorem C10_error_branch_frame :
    (∀ (b : Batch) (errMessage : String) (now : Int),
        RETRY_LIMITS b.batch_type ≤ b.retry_count + 1 →
        isDeadLettered (handleError b errMessage b.batch_type now) = true
        ∧ (outcomeUpdated (handleError b errMessage b.batch_type now)).retry_count
            = b.retry_count
        ∧ (outcomeUpdated (handleError b errMessage b.batch_type now)).id = b.id
        ∧ (outcomeUpdated (handleError b errMessage b.batch_type now)).batch_type
            = b.batch_type
        ∧ (outcomeUpdated (handleError b errMessage b.batch_type now)).priority
            = b.priority
        ∧ (outcomeUpdated (handleError b errMessage b.batch_type now)).items_total
            = b.items_total
        ∧ (outcomeUpdated (handleError b errMessage b.batch_type now)).items_processed
            = b.items_processed
        ∧ (outcomeUpdated (handleError b errMessage b.batch_type now)).items_failed
            = b.items_failed
        ∧ (outcomeUpdated (handleError b errMessage b.batch_type now)).claimed_by
            = b.claimed_by
        ∧ (outcomeUpdated (handleError b errMessage b.batch_type now)).claim_expires_at
            = b.claim_expires_at
        ∧ (outcomeUpdated (handleError b errMessage b.batch_type now)).started_at
            = b.started_at
        ∧ (outcomeUpdated (handleError b errMessage b.batch_type now)).metadata
            = b.metadata
        ∧ (outcomeUpdated (handleError b errMessage b.batch_type now)).created_at
            = b.created_at
        ∧ (outcomeUpdated (handleError b errMessage b.batch_type now)).updated_at
            = b.updated_at
        ∧ (outcomeUpdated (handleError b errMessage b.batch_type now)).status = .error
        ∧ (outcomeUpdated (handleError b errMessage b.batch_type now)).error_message
            = some errMessage
        ∧ (outcomeUpdated (handleError b errMessage b.batch_type now)).completed_at
            = some now)
    ∧ finalErrorRetryCount 0 10 albumBatch = some (RETRY_LIMITS "album_page" - 1) := by
  constructor
  · intro b e now h
    unfold handleError
    rw [if_neg (by omega)]
    and_intros <;> rfl
  · decide

/-- C10 witness: an album_page batch at retry_count 4 is dead-lettered with
retry_count still 4 = limit - 1. -/
theorem C10_error_branch_frame_witness :
    isDeadLettered (handleError exhaustedBatch "boom" exhaustedBatch.batch_type 77) = true
    ∧ (outcomeUpdated (handleError exhaustedBatch "boom" exhaustedBatch.batch_type 77)).retry_count
        = exhaustedBatch.retry_count := by
  have h := C10_error_branch_frame.1 exhaustedBatch "boom" 77 (by decide)
  exact ⟨h.1, h.2.1⟩

/-- C4 (code bug in the worker): the capacity check destructures the data field of a
head-count response, which carries no rows, so inProgressCount is always null and is
coerced to 0: the tick never emits max_concurrent_jobs_reached and always calls claim
with limit MAX_CONCURRENT_JOBS, even when MAX_CONCURRENT_JOBS batches are already
processing. -/
theorem C4_cap_never_enforced :
    (∀ db : List Batch,
        claimAndProcessBatchesDecision db = .claimCalled MAX_CONCURRENT_JOBS)
    ∧ claimAndProcessBatchesDecision threeProcessingDb = .claimCalled 3
    ∧ (selectProcessingCountHead threeProcessingDb).count = 3 := by
  exact ⟨fun db => rfl, by decide, by decide⟩

theorem requeueInserts_length (now : Int) (idBase : Nat) (ds : List DeadLetterItem) :
    (requeueInserts now idBase ds).length = ds.length := by
  induction ds generalizing idBase with
  | nil => rfl
  | cons d ds ih => simp [requeueInserts, ih]

theorem requeueInserts_mem (now : Int) (idBase : Nat) (ds : List DeadLetterItem) :
    ∀ d ∈ ds, ∃ nb ∈ requeueInserts now idBase ds,
      nb.status = .pending ∧ nb.batch_type = d.item_type ∧ nb.metadata = d.metadata
      ∧ nb.retry_count = d.retry_count + 1 := by
  induction ds generalizing idBase with
  | nil => intro d hd; cases hd
  | cons a as ih =>
    intro d hd
    rcases List.mem_cons.mp hd with rfl | hd
    · exact ⟨requeueBatch idBase now d, List.mem_cons_self _ _, rfl, rfl, rfl, rfl⟩
    · obtain ⟨nb, hnb, hprops⟩ := ih (idBase + 1) d hd
      exact ⟨nb, List.mem_cons_of_mem _ hnb, hprops⟩

theorem dlqSelected_subset (dlq : List DeadLetterItem) (p : Nat) :
    ∀ d ∈ dlqSelected dlq p, d ∈ dlq ∧ d.retry_count < 3 := by
  intro d hd
  have h1 : d ∈ List.insertionSort dlqOrder (dlq.filter fun d => decide (d.retry_count < 3)) :=
    List.take_subset _ _ hd
  have h2 := (List.mem_insertionSort dlqOrder).mp h1
  have h3 := List.mem_filter.mp h2
  exact ⟨h3.1, of_decide_eq_true h3.2⟩

/-- C5 (amended): reset_expired_batches updates exactly the rows with status processing
whose claim_expires_at is more than expiry_minutes in the past; each becomes pending
with claimed_by and claim_expires_at cleared, retry_count unchanged, the annotation
appended to its error_message, and updated_at set to now (the one field the claim's
frame omits); every other row and every other field is unchanged, and the count of
reset rows is returned. -/
theorem C5_reset_expired (db : List Batch) (em : Nat) (now : Int) :
    (reset_expired_batches db em now).2 = (db.filter (resetExpiredPred now em)).length
    ∧ (reset_expired_batches db em now).1.length = db.length
    ∧ (∀ (i : Nat) (hi : i < db.length) (hi2 : i < (reset_expired_batches db em now).1.length),
        ((reset_expired_batches db em now).1)[i] =
          if resetExpiredPred now em (db[i]) then resetUpdate now (db[i]) else db[i])
    ∧ (∀ b ∈ db, resetExpiredPred now em b = false →
        b ∈ (reset_expired_batches db em now).1)
    ∧ (∀ b ∈ db, resetExpiredPred now em b = true →
        resetUpdate now b ∈ (reset_expired_batches db em now).1)
    ∧ (∀ b : Batch,
        (resetUpdate now b).status = .pending
        ∧ (resetUpdate now b).claimed_by = none
        ∧ (resetUpdate now b).claim_expires_at = none
        ∧ (resetUpdate now b).retry_count = b.retry_count
        ∧ (resetUpdate now b).error_message =
            some (b.error_message.getD "" ++ " Batch expired and was reset.")
        ∧ (resetUpdate now b).updated_at = now
        ∧ (resetUpdate now b).id = b.id
        ∧ (resetUpdate now b).batch_type = b.batch_type
        ∧ (resetUpdate now b).priority = b.priority
        ∧ (resetUpdate now b).items_total = b.items_total
        ∧ (resetUpdate now b).items_processed = b.items_processed
        ∧ (resetUpdate now b).items_failed = b.items_failed
        ∧ (resetUpdate now b).started_at = b.started_at
        ∧ (resetUpdate now b).completed_at = b.completed_at
        ∧ (resetUpdate now b).metadata = b.metadata
        ∧ (resetUpdate now b).created_at = b.created_at) := by
  refine ⟨rfl, by simp [reset_expired_batches], ?_, ?_, ?_, ?_⟩
  · intro i hi hi2
    simp [reset_expired_batches, List.getElem_map]
  · intro b hb hfalse
    refine List.mem_map.mpr ⟨b, hb, ?_⟩
    simp [hfalse]
  · intro b hb htrue
    refine List.mem_map.mpr ⟨b, hb, ?_⟩
    simp [htrue]
  · intro b
    and_intros <;> rfl

/-- C5 witness: a processing batch whose lease expired long ago is reset; the count and
the updated row are as stated. -/
theorem C5_reset_expired_witness :
    (reset_expired_batches [expiredBatch] 30 0).2
        = ([expiredBatch].filter (resetExpiredPred 0 30)).length
    ∧ resetUpdate 0 expiredBatch ∈ (reset_expired_batches [expiredBatch] 30 0).1 := by
  have h := C5_reset_expired [expiredBatch] 30 0
  exact ⟨h.1, h.2.2.2.2.1 expiredBatch (by decide) (by decide)⟩

/-- C5 counterexample: the claim asserts that all fields other than status, claimed_by,
claim_expires_at, retry_count and error_message are unchanged, but the SET list also
writes updated_at = now: resetting at now = 0 a row whose updated_at was 5 changes
updated_at to 0. -/
theorem C5_counterexample :
    (reset_expired_batches [expiredBatch] 30 0).1 = [resetUpdate 0 expiredBatch]
    ∧ (resetUpdate 0 expiredBatch).updated_at = 0
    ∧ expiredBatch.updated_at = 5 := by
  decide

/-- C6: requeue_dead_letter_items requeues exactly the dead-letter items with
retry_count < 3, taken in created_at order up to the limit: for each, one new batch is
inserted with status pending, batch_type equal to the item_type, the same metadata, and
retry_count equal to the item's retry_count + 1; the dead-letter row's own retry_count
is incremented and the row is never deleted; items with retry_count >= 3 are
untouched. -/
theorem C6_requeue (dlq : List DeadLetterItem) (p_limit idBase : Nat) (now : Int)
    (hids : (dlq.map (·.id)).Nodup) :
    (requeue_dead_letter_items dlq p_limit idBase now).2.2
        = min p_limit (dlq.filter fun d => decide (d.retry_count < 3)).length
    ∧ (requeue_dead_letter_items dlq p_limit idBase now).1.length = dlq.length
    ∧ List.Sorted dlqOrder (dlqSelected dlq p_limit)
    ∧ (∀ d ∈ dlqSelected dlq p_limit, d ∈ dlq ∧ d.retry_count < 3)
    ∧ ((dlq.filter fun d => decide (d.retry_count < 3)).length ≤ p_limit →
        ∀ d ∈ dlq, d.retry_count < 3 → d ∈ dlqSelected dlq p_limit)
    ∧ (∀ d ∈ dlqSelected dlq p_limit,
        (∃ nb ∈ (requeue_dead_letter_items dlq p_limit idBase now).2.1,
          nb.status = .pending ∧ nb.batch_type = d.item_type ∧ nb.metadata = d.metadata
          ∧ nb.retry_count = d.retry_count + 1)
        ∧ { d with retry_count := d.retry_count + 1, updated_at := now }
            ∈ (requeue_dead_letter_items dlq p_limit idBase now).1)
    ∧ (∀ d ∈ dlq, 3 ≤ d.retry_count →
        d ∈ (requeue_dead_letter_items dlq p_limit idBase now).1)
    ∧ (requeue_dead_letter_items dlq p_limit idBase now).2.1.length
        = (requeue_dead_letter_items dlq p_limit idBase now).2.2 := by
  refine ⟨?_, by simp [requeue_dead_letter_items], ?_, dlqSelected_subset dlq p_limit,
    ?_, ?_, ?_, ?_⟩
  · simp [requeue_dead_letter_items, dlqSelected, List.length_take,
      List.length_insertionSort]
  · exact List.Pairwise.sublist (List.take_sublist _ _)
      (List.sorted_insertionSort dlqOrder _)
  · intro hlen d hd hrc
    unfold dlqSelected
    rw [List.take_of_length_le (by simpa [List.length_insertionSort] using hlen)]
    exact (List.mem_insertionSort dlqOrder).mpr
      (List.mem_filter.mpr ⟨hd, decide_eq_true hrc⟩)
  · intro d hd
    obtain ⟨hdlq, _⟩ := dlqSelected_subset dlq p_limit d hd
    constructor
    · exact requeueInserts_mem now idBase (dlqSelected dlq p_limit) d hd
    · refine List.mem_map.mpr ⟨d, hdlq, ?_⟩
      have hc : ((dlqSelected dlq p_limit).map (·.id)).contains d.id = true :=
        List.elem_iff.mpr (List.mem_map_of_mem _ hd)
      rw [if_pos hc]
  · intro d hd hrc
    refine List.mem_map.mpr ⟨d, hd, ?_⟩
    have hc : ¬ ((dlqSelected dlq p_limit).map (·.id)).contains d.id = true := by
      intro hne
      have hmem : d.id ∈ (dlqSelected dlq p_limit).map (·.id) := List.elem_iff.mp hne
      obtain ⟨s, hs, hsid⟩ := List.mem_map.mp hmem
      obtain ⟨hsdlq, hsrc⟩ := dlqSelected_subset dlq p_limit s hs
      have hsd : s = d := List.inj_on_of_nodup_map hids hsdlq hd hsid
      rw [hsd] at hsrc
      omega
    rw [if_neg hc]
  · exact requeueInserts_length now idBase (dlqSelected dlq p_limit)

/-- C6 witness: three items below the requeue cap and one at the cap; the three are
requeued and the capped one is untouched. -/
theorem C6_requeue_witness :
    (requeue_dead_letter_items [dlqItem 0 0, dlqItem 1 1, dlqItem 2 2, dlqItem 3 3]
        100 500 9).2.2
      = min 100 (([dlqItem 0 0, dlqItem 1 1, dlqItem 2 2, dlqItem 3 3].filter
          fun d => decide (d.retry_count < 3)).length)
    ∧ dlqItem 3 3 ∈ (requeue_dead_letter_items
        [dlqItem 0 0, dlqItem 1 1, dlqItem 2 2, dlqItem 3 3] 100 500 9).1 := by
  have h := C6_requeue [dlqItem 0 0, dlqItem 1 1, dlqItem 2 2, dlqItem 3 3] 100 500 9
    (by decide)
  exact ⟨h.1, h.2.2.2.2.2.2.1 (dlqItem 3 3) (by decide) (by decide)⟩

theorem claimSelected_subset (db : List Batch) (p : Nat) (now : Int) :
    ∀ b ∈ claimSelected db p now, b ∈ db ∧ claimEligible now b = true := by
  intro b hb
  have h1 : b ∈ List.insertionSort claimOrder (db.filter (claimEligible now)) :=
    List.take_subset _ _ hb
  exact List.mem_filter.mp ((List.mem_insertionSort claimOrder).mp h1)

/-- C1 (amended): claim_processing_batches selects up to p_limit of the rows satisfying
status = pending and (claim_expires_at null or expired), in order retry_count ascending
then created_at ascending; each selected row is updated to processing with claimed_by
the worker id, claim_expires_at = now + 5 minutes and started_at coalesced to now, and
the updated rows are returned; provided the limit is positive, an empty result means no
eligible row existed (with limit 0 the function returns no rows regardless). -/
theorem C1_claim (db : List Batch) (p_limit : Nat) (now : Int) (workerId : String)
    (hids : (db.map (·.id)).Nodup) :
    (claim_processing_batches db p_limit now workerId).2.length
        = min p_limit (db.filter (claimEligible now)).length
    ∧ (∀ r ∈ (claim_processing_batches db p_limit now workerId).2,
        ∃ b ∈ db, claimEligible now b = true ∧ r = claimUpdate now workerId b)
    ∧ (∀ r ∈ (claim_processing_batches db p_limit now workerId).2,
        r.status = .processing ∧ r.claimed_by = some workerId
        ∧ r.claim_expires_at = some (now + leaseMs))
    ∧ (∀ b : Batch,
        (claimUpdate now workerId b).started_at = some (b.started_at.getD now)
        ∧ (claimUpdate now workerId b).retry_count = b.retry_count
        ∧ (claimUpdate now workerId b).created_at = b.created_at
        ∧ (claimUpdate now workerId b).metadata = b.metadata
        ∧ (claimUpdate now workerId b).batch_type = b.batch_type
        ∧ (claimUpdate now workerId b).id = b.id)
    ∧ List.Sorted claimOrder (claim_processing_batches db p_limit now workerId).2
    ∧ (∀ b ∈ db, claimEligible now b = false →
        b ∈ (claim_processing_batches db p_limit now workerId).1)
    ∧ (∀ r ∈ (claim_processing_batches db p_limit now workerId).2,
        r ∈ (claim_processing_batches db p_limit now workerId).1)
    ∧ (0 < p_limit →
        ((claim_processing_batches db p_limit now workerId).2 = [] ↔
          db.filter (claimEligible now) = [])) := by
  have hlen : (claim_processing_batches db p_limit now workerId).2.length
      = min p_limit (db.filter (claimEligible now)).length := by
    simp [claim_processing_batches, claimSelected, List.length_take,
      List.length_insertionSort]
  refine ⟨hlen, ?_, ?_, ?_, ?_, ?_, ?_, ?_⟩
  · intro r hr
    obtain ⟨b, hb, hrb⟩ := List.mem_map.mp hr
    obtain ⟨hbdb, helig⟩ := claimSelected_subset db p_limit now b hb
    exact ⟨b, hbdb, helig, hrb.symm⟩
  · intro r hr
    obtain ⟨b, _, hrb⟩ := List.mem_map.mp hr
    rw [← hrb]
    exact ⟨rfl, rfl, rfl⟩
  · intro b
    and_intros <;> rfl
  · have hsor : List.Sorted claimOrder (claimSelected db p_limit now) :=
      List.Pairwise.sublist (List.take_sublist _ _)
        (List.sorted_insertionSort claimOrder _)
    exact List.Pairwise.map _ (fun a b h => h) hsor
  · intro b hb hfalse
    refine List.mem_map.mpr ⟨b, hb, ?_⟩
    have hc : ¬ ((claimSelected db p_limit now).map (·.id)).contains b.id = true := by
      intro hne
      obtain ⟨s, hs, hsid⟩ := List.mem_map.mp (List.elem_iff.mp hne)
      obtain ⟨hsdb, hselig⟩ := claimSelected_subset db p_limit now s hs
      have hsb : s = b := List.inj_on_of_nodup_map hids hsdb hb hsid
      rw [hsb] at hselig
      rw [hselig] at hfalse
      cases hfalse
    rw [if_neg hc]
  · intro r hr
    obtain ⟨b, hb, hrb⟩ := List.mem_map.mp hr
    obtain ⟨hbdb, _⟩ := claimSelected_subset db p_limit now b hb
    refine List.mem_map.mpr ⟨b, hbdb, ?_⟩
    have hc : ((claimSelected db p_limit now).map (·.id)).contains b.id = true :=
      List.elem_iff.mpr (List.mem_map_of_mem _ hb)
    rw [if_pos hc]
    exact hrb
  · intro hp
    rw [← List.length_eq_zero, ← List.length_eq_zero (l := db.filter (claimEligible now)),
      hlen]
    omega

/-- C1 witness: claiming with limit 3 from a store holding one eligible batch returns
one row, and the empty-result clause holds at this positive limit. -/
theorem C1_claim_witness :
    (claim_processing_batches [pendingBatch] 3 1000 "w").2.length
        = min 3 ([pendingBatch].filter (claimEligible 1000)).length
    ∧ (0 < 3 → ((claim_processing_batches [pendingBatch] 3 1000 "w").2 = [] ↔
        [pendingBatch].filter (claimEligible 1000) = [])) := by
  have h := C1_claim [pendingBatch] 3 1000 "w" (by decide)
  exact ⟨h.1, h.2.2.2.2.2.2.2⟩

/-- C1 counterexample: the claim asserts that an empty result means no eligible row
existed; calling claim with limit 0 on a store holding one eligible pending batch
returns no rows although an eligible row exists. -/
theorem C1_counterexample :
    (claim_processing_batches [pendingBatch] 0 1000 "w").2 = []
    ∧ [pendingBatch].filter (claimEligible 1000) = [pendingBatch]
    ∧ claimEligible 1000 pendingBatch = true := by
  decide

theorem rateLimitAlerts_warning (rls : List ApiRateLimit) :
    ∀ a ∈ rateLimitAlerts rls, a.level = .warning := by
  intro a ha
  obtain ⟨r, _, hfa⟩ := List.mem_filterMap.mp ha
  by_cases hc : r.requests_limit ≠ 0 ∧ 100 * r.requests_remaining < 20 * r.requests_limit
  · rw [if_pos hc] at hfa
    cases hfa
    rfl
  · rw [if_neg hc] at hfa
    cases hfa

theorem monitorAlerts_critical_iff (db : List Batch) (dlq : List DeadLetterItem)
    (rls : List ApiRateLimit) (now : Int) :
    (((monitorAlerts db dlq rls now).any fun a => a.level == .critical) = true)
      ↔ 5 < (db.filter (isStalled now)).length := by
  unfold monitorAlerts
  have hA : ¬ 10 < (selectDeadLetterCountHead dlq now).data.getD 0 := by
    simp [selectDeadLetterCountHead]
  have hB : ¬ 20 < (selectErrorBatchesCountHead db now).data.getD 0 := by
    simp [selectErrorBatchesCountHead]
  rw [if_neg hA, if_neg hB]
  by_cases h : 5 < (db.filter (isStalled now)).length
  · rw [if_pos h]
    simp [h]
  · rw [if_neg h]
    simp only [List.nil_append]
    constructor
    · intro hany
      obtain ⟨a, ha, hcrit⟩ := List.any_eq_true.mp hany
      rw [rateLimitAlerts_warning rls a ha] at hcrit
      exact absurd hcrit (by decide)
    · intro hlt
      exact absurd hlt h

theorem reset_expired_post (db : List Batch) (em : Nat) (now : Int) :
    ∀ b ∈ (reset_expired_batches db em now).1, resetExpiredPred now em b = false := by
  intro b hb
  obtain ⟨b0, _, hfb⟩ := List.mem_map.mp hb
  cases hpred : resetExpiredPred now em b0 with
  | true =>
    rw [if_pos hpred] at hfb
    rw [← hfb]
    rfl
  | false =>
    rw [if_neg (by simp [hpred])] at hfb
    rw [← hfb]
    exact hpred

/-- C8 (amended): the monitor raises a critical alert exactly when more than 5 batches
are stalled (processing with started_at older than 30 minutes); when critical, it
invokes reset_expired_batches with expiry 30 minutes and records the action
reset_stalled_batches carrying the stalled count. After remediation no batch remains
processing with claim_expires_at more than 30 minutes past; batches stalled by
started_at whose claim_expires_at is null or not yet 30 minutes past may remain
stalled, so a zero stalled count is not guaranteed. -/
theorem C8_monitor (db : List Batch) (dlq : List DeadLetterItem)
    (rls : List ApiRateLimit) (now : Int) :
    ((((monitorAlerts db dlq rls now).any fun a => a.level == .critical) = true)
       ↔ 5 < (db.filter (isStalled now)).length)
    ∧ (5 < (db.filter (isStalled now)).length →
        (checkSystemHealth db dlq rls now).resetExpiryMinutes = some 30
        ∧ (checkSystemHealth db dlq rls now).actions
            = [("reset_stalled_batches", (db.filter (isStalled now)).length)]
        ∧ (checkSystemHealth db dlq rls now).batchesAfter
            = (reset_expired_batches db 30 now).1
        ∧ ∀ b ∈ (checkSystemHealth db dlq rls now).batchesAfter,
            resetExpiredPred now 30 b = false)
    ∧ (¬ 5 < (db.filter (isStalled now)).length →
        (checkSystemHealth db dlq rls now).batchesAfter = db
        ∧ (checkSystemHealth db dlq rls now).actions = []
        ∧ (checkSystemHealth db dlq rls now).resetExpiryMinutes = none) := by
  refine ⟨monitorAlerts_critical_iff db dlq rls now, ?_, ?_⟩
  · intro h
    have hcrit : ((monitorAlerts db dlq rls now).any fun a => a.level == .critical) = true :=
      (monitorAlerts_critical_iff db dlq rls now).mpr h
    have hcond : (((monitorAlerts db dlq rls now).any fun a => a.level == .critical) = true)
        ∧ 0 < (db.filter (isStalled now)).length := ⟨hcrit, by omega⟩
    unfold checkSystemHealth
    rw [if_pos hcond]
    exact ⟨rfl, rfl, rfl, reset_expired_post db 30 now⟩
  · intro h
    have hcrit : ¬ ((((monitorAlerts db dlq rls now).any fun a => a.level == .critical) = true)
        ∧ 0 < (db.filter (isStalled now)).length) := by
      intro hc
      exact h ((monitorAlerts_critical_iff db dlq rls now).mp hc.1)
    unfold checkSystemHealth
    rw [if_neg hcrit]
    exact ⟨rfl, rfl, rfl⟩

/-- C8 witness: six stalled batches trigger the critical alert, the 30-minute reset
invocation and the recorded action. -/
theorem C8_monitor_witness :
    (checkSystemHealth stalledDb [] [] 1860000).resetExpiryMinutes = some 30
    ∧ (checkSystemHealth stalledDb [] [] 1860000).actions
        = [("reset_stalled_batches", (stalledDb.filter (isStalled 1860000)).length)] := by
  have h := (C8_monitor stalledDb [] [] 1860000).2.1 (by decide)
  exact ⟨h.1, h.2.1⟩

/-- C8 counterexample: the claim asserts zero batches remain stalled after the
remediation. Six batches claimed at time 0 are observed at now = 1860000 (31 minutes
after their started_at, so all six are stalled and the critical alert fires), but their
leases expired only 26 minutes ago, outside the reset predicate on claim_expires_at, so
the invoked reset_expired_batches(30) touches none of them and all six remain
stalled. -/
theorem C8_counterexample :
    (checkSystemHealth stalledDb [] [] 1860000).actions = [("reset_stalled_batches", 6)]
    ∧ (checkSystemHealth stalledDb [] [] 1860000).resetExpiryMinutes = some 30
    ∧ ((checkSystemHealth stalledDb [] [] 1860000).batchesAfter.filter
        (isStalled 1860000)).length = 6 := by
  decide

theorem takeWhile_all {p : Char → Bool} :
    ∀ (l : List Char), (∀ c ∈ l, p c = true) → l.takeWhile p = l := by
  intro l
  induction l with
  | nil => intro _; rfl
  | cons a as ih =>
    intro h
    rw [List.takeWhile_cons, h a (List.mem_cons_self a as), if_pos rfl,
      ih (fun c hc => h c (List.mem_cons_of_mem a hc))]

theorem takeWhile_append_stop {p : Char → Bool} (x : Char) (hx : p x = false)
    (tl : List Char) :
    ∀ (l : List Char), (∀ c ∈ l, p c = true) → (l ++ x :: tl).takeWhile p = l := by
  intro l
  induction l with
  | nil =>
    intro _
    rw [List.nil_append, List.takeWhile_cons, hx]
    rfl
  | cons a as ih =>
    intro h
    rw [List.cons_append, List.takeWhile_cons, h a (List.mem_cons_self a as), if_pos rfl,
      ih (fun c hc => h c (List.mem_cons_of_mem a hc))]

theorem digit_not_slash {c : Char} (h : isDigitChar c = true) : (c == '/') = false := by
  cases hq : c == '/' with
  | false => rfl
  | true =>
    rw [eq_of_beq hq] at h
    exact absurd h (by decide)

theorem digit_not_space {c : Char} (h : isDigitChar c = true) : (c == ' ') = false := by
  cases hq : c == ' ' with
  | false => rfl
  | true =>
    rw [eq_of_beq hq] at h
    exact absurd h (by decide)

theorem digit_ne_star {c : Char} (h : isDigitChar c = true) : c ≠ '*' := by
  intro hc
  rw [hc] at h
  exact absurd h (by decide)

theorem shouldRunAux_starSlash (ds : List Char) (m : Nat) (hne : ds ≠ [])
    (hdig : ∀ c ∈ ds, isDigitChar c = true) :
    shouldRunAux ('*' :: '/' :: (ds ++ ' ' :: "* * * *".data)) m
      = match digitsToNat ds with
        | 0 => false
        | n + 1 => m % (n + 1) == 0 := by
  unfold shouldRunAux
  have h1 : ¬ ('*' :: '/' :: (ds ++ ' ' :: "* * * *".data)) = "* * * * *".data := by
    intro h
    have h2 : ('*' :: '/' :: (ds ++ ' ' :: "* * * *".data)).get? 1 = some '/' := rfl
    rw [h] at h2
    exact absurd h2 (by decide)
  rw [if_neg h1,
    if_pos (show ('*' :: '/' :: (ds ++ ' ' :: "* * * *".data)).take 2 = ['*', '/'] from rfl)]
  have hsplit : splitSecondSeg '/' ('*' :: '/' :: (ds ++ ' ' :: "* * * *".data))
      = some ((ds ++ ' ' :: "* * * *".data).takeWhile fun d => !(d == '/')) := rfl
  have hconc : ∀ c ∈ (' ' :: "* * * *".data), (!(c == '/')) = true := by decide
  have hseg : ((ds ++ ' ' :: "* * * *".data).takeWhile fun d => !(d == '/'))
      = ds ++ ' ' :: "* * * *".data := by
    apply takeWhile_all
    intro c hc
    rcases List.mem_append.mp hc with hc | hc
    · rw [digit_not_slash (hdig c hc)]
      rfl
    · exact hconc c hc
  have hfield : firstSpaceField (ds ++ ' ' :: "* * * *".data) = ds :=
    takeWhile_append_stop ' ' rfl "* * * *".data ds
      (fun c hc => by rw [digit_not_space (hdig c hc)]; rfl)
  have hparse : parseLeadingNat ds = some (digitsToNat ds) := by
    unfold parseLeadingNat
    rw [takeWhile_all ds hdig, if_neg (fun h => hne (List.isEmpty_iff.mp h))]
  unfold starSlashFire
  rw [hsplit, hseg]
  show (match parseLeadingNat (firstSpaceField (ds ++ ' ' :: "* * * *".data)) with
        | none => false
        | some 0 => false
        | some (n + 1) => m % (n + 1) == 0) = _
  rw [hfield, hparse]
  cases hdn : digitsToNat ds with
  | zero => rfl
  | succ n => rfl

theorem shouldRunAux_minute (ds : List Char) (m : Nat) (hne : ds ≠ [])
    (hdig : ∀ c ∈ ds, isDigitChar c = true) :
    shouldRunAux (ds ++ ' ' :: "* * * *".data) m = (m == digitsToNat ds) := by
  obtain ⟨a, as, rfl⟩ : ∃ a as, ds = a :: as := by
    cases ds with
    | nil => exact absurd rfl hne
    | cons a as => exact ⟨a, as, rfl⟩
  have hadig : isDigitChar a = true := hdig a (List.mem_cons_self a as)
  unfold shouldRunAux
  have h1 : ¬ ((a :: as) ++ ' ' :: "* * * *".data) = "* * * * *".data := by
    intro h
    have h2 : ((a :: as) ++ ' ' :: "* * * *".data).get? 0 = some a := rfl
    rw [h] at h2
    have h3 : a = '*' := (Option.some.inj h2).symm
    exact digit_ne_star hadig h3
  rw [if_neg h1]
  have h2 : ¬ ((a :: as) ++ ' ' :: "* * * *".data).take 2 = ['*', '/'] := by
    intro h
    rw [List.cons_append, List.take_succ_cons] at h
    injection h with h3 _
    exact digit_ne_star hadig h3
  rw [if_neg h2]
  have hdts : digitThenSpace ((a :: as) ++ ' ' :: "* * * *".data) = true := by
    unfold digitThenSpace
    rw [takeWhile_append_stop ' ' (by decide) "* * * *".data (a :: as) hdig,
      List.drop_left]
    rfl
  rw [if_pos hdts]
  unfold minuteFire
  have hfield : firstSpaceField ((a :: as) ++ ' ' :: "* * * *".data) = a :: as :=
    takeWhile_append_stop ' ' rfl "* * * *".data (a :: as)
      (fun c hc => by rw [digit_not_space (hdig c hc)]; rfl)
  have hparse : parseLeadingNat (a :: as) = some (digitsToNat (a :: as)) := by
    unfold parseLeadingNat
    rw [takeWhile_all (a :: as) hdig, if_neg (by simp)]
  rw [hfield, hparse]

/-- C9 (amended): the cron matcher fires the every-minute pattern always; fires a
star-slash pattern with decimal interval N exactly when the minute is divisible by N
(so the two-minute pattern fires on even minutes and the fifteen-minute pattern on
multiples of 15); fires a pattern beginning with digits followed by whitespace exactly
on that minute; and never fires a pattern outside all three recognisers, that is, one
that is not the every-minute literal, does not start with the star-slash prefix, and
does not begin with digits followed by whitespace (such as xyz). A pattern that starts
with the star-slash prefix without being of the star-slash-number form still takes the
interval branch and fires according to parseInt of its interval field: the pattern with
interval field 2x fires exactly on even minutes. -/
theorem C9_cron :
    (∀ m : Nat, shouldRunSchedule "* * * * *" m = true)
    ∧ (∀ (ds : List Char) (m : Nat), ds ≠ [] → (∀ c ∈ ds, isDigitChar c = true) →
        0 < digitsToNat ds →
        (shouldRunSchedule (starSlashPattern ds) m = true ↔ m % digitsToNat ds = 0))
    ∧ (∀ m : Nat, shouldRunSchedule "*/2 * * * *" m = true ↔ m % 2 = 0)
    ∧ (∀ m : Nat, shouldRunSchedule "*/15 * * * *" m = true ↔ m % 15 = 0)
    ∧ (∀ (ds : List Char) (m : Nat), ds ≠ [] → (∀ c ∈ ds, isDigitChar c = true) →
        (shouldRunSchedule (minutePattern ds) m = true ↔ m = digitsToNat ds))
    ∧ (∀ m : Nat, shouldRunSchedule "0 * * * *" m = true ↔ m = 0)
    ∧ (∀ m : Nat, shouldRunSchedule "xyz" m = false)
    ∧ (∀ (p : String) (m : Nat), p ≠ "* * * * *" → p.data.take 2 ≠ ['*', '/'] →
        digitThenSpace p.data = false → shouldRunSchedule p m = false)
    ∧ (∀ m : Nat, shouldRunSchedule "*/2x * * * *" m = true ↔ m % 2 = 0) := by
  refine ⟨fun m => rfl, ?_, ?_, ?_, ?_, ?_, fun m => rfl, ?_, ?_⟩
  · intro ds m hne hdig hpos
    have hcs : shouldRunSchedule (starSlashPattern ds) m
        = shouldRunAux ('*' :: '/' :: (ds ++ ' ' :: "* * * *".data)) m := rfl
    rw [hcs, shouldRunAux_starSlash ds m hne hdig]
    obtain ⟨n, hn⟩ := Nat.exists_eq_succ_of_ne_zero (Nat.pos_iff_ne_zero.mp hpos)
    rw [hn]
    simp
  · intro m
    show (m % 2 == 0) = true ↔ m % 2 = 0
    simp
  · intro m
    show (m % 15 == 0) = true ↔ m % 15 = 0
    simp
  · intro ds m hne hdig
    have hcs : shouldRunSchedule (minutePattern ds) m
        = shouldRunAux (ds ++ ' ' :: "* * * *".data) m := rfl
    rw [hcs, shouldRunAux_minute ds m hne hdig]
    simp
  · intro m
    show (m == 0) = true ↔ m = 0
    simp
  · intro p m hp h2 h3
    have h3n : ¬ digitThenSpace p.data = true := by
      rw [h3]
      exact Bool.false_ne_true
    unfold shouldRunSchedule shouldRunAux
    rw [if_neg (fun h => hp (String.ext_iff.mpr h)), if_neg h2, if_neg h3n]
  · intro m
    show (m % 2 == 0) = true ↔ m % 2 = 0
    simp

/-- C9 witness: the fifteen-minute pattern at minute 45 and the minute-zero pattern at
minute 7, through the general digit-string clauses, and a word pattern that matches no
recogniser, through the general never-fires clause. -/
theorem C9_cron_witness :
    (shouldRunSchedule (starSlashPattern ['1', '5']) 45 = true
       ↔ 45 % digitsToNat ['1', '5'] = 0)
    ∧ (shouldRunSchedule (minutePattern ['0']) 7 = true ↔ 7 = digitsToNat ['0'])
    ∧ shouldRunSchedule "monitor" 3 = false :=
  ⟨C9_cron.2.1 ['1', '5'] 45 (by decide) (by decide) (by decide),
   C9_cron.2.2.2.2.1 ['0'] 7 (by decide) (by decide),
   C9_cron.2.2.2.2.2.2.2.1 "monitor" 3 (by decide) (by decide) (by decide)⟩

/-- C9 counterexample: the claim asserts that the matcher never fires any pattern other
than the three described forms. The pattern with interval field 2x is none of them: it
is not the every-minute pattern, it is not of the star-slash-number form because its
interval field contains the non-digit x, and it does not begin with digits. Yet it
takes the interval branch, parseInt extracts 2 from the field, and it fires at minute
4 (and every even minute) while staying silent at minute 5. -/
theorem C9_counterexample :
    shouldRunSchedule "*/2x * * * *" 4 = true
    ∧ shouldRunSchedule "*/2x * * * *" 5 = false
    ∧ "*/2x * * * *" ≠ "* * * * *"
    ∧ firstSpaceField ("*/2x * * * *".data.drop 2) = ['2', 'x']
    ∧ isDigitChar 'x' = false
    ∧ digitThenSpace "*/2x * * * *".data = false := by
  decide

end Pipeline
